import Mathlib

/-!
Shallow embedding of src/demo.ts (the SimpleAgent facade around the
@google/gemini-cli-core client library).

The embedding models:
- the tagged stream events consumed by SimpleAgent.sendMessage
  (GeminiEventType.Content / Finished / Error / ToolCallRequest / other);
- the for-await consumption loop of sendMessage (lines 79-105), including
  the accumulated fullResponse string, the optional onStream callback
  invocations and the console.log observations on tool-call requests;
- the try/catch normalization of AbortError to a fresh
  Error with message Request cancelled (lines 108-113);
- the prompt identifier generation sessionId-Date.now() (line 68);
- the SimpleAgent.create bootstrap (lines 37-56), with the external
  Config.initialize / client.isInitialized / client.initialize behaviour
  of the opaque library supplied as parameters.

A JavaScript thrown value is modelled by JsThrown: whether it is an
instanceof Error, its name and its message.  A stream run is modelled by
the finite list of events it yields followed by an optional exception the
transport raises after them (an exception raised while establishing the
stream is a run with an empty event list).  The abort signal handed to
sendMessageStream is a Bool (true means aborted); the facade creates a
fresh AbortController and never calls abort, so it always passes false.
-/

/-- A JavaScript thrown value: whether it is an instanceof Error, plus its
name and message fields. -/
structure JsThrown where
  isErrorInstance : Bool
  name : String
  message : String
  deriving DecidableEq, Repr

/-- The stream events of ServerGeminiStreamEvent that sendMessage
distinguishes.  Content carries event.value (the text chunk).  Error
carries event.value.error?.message (none models an absent message).
ToolCallRequest carries event.value.name.  Other stands for every event
kind that falls into the default switch arm. -/
inductive ServerGeminiStreamEvent where
  | Content (value : String)
  | Finished
  | Error (msg : Option String)
  | ToolCallRequest (name : String)
  | Other
  deriving DecidableEq, Repr

/-- One run of the stream returned by client.sendMessageStream: the events
it yields in order, then an optional exception raised by the transport
after them (events after a Finished or Error event are never pulled by the
loop, so they are simply never observed). -/
structure GeminiStream where
  events : List ServerGeminiStreamEvent
  exn : Option JsThrown
  deriving DecidableEq, Repr

/-- The message of the Error the loop throws on an Error event:
event.value.error?.message || (the JS or-else makes an absent AND an empty
message fall back to the default). -/
def errMessage : Option String → String
  | none => "Unknown error occurred"
  | some s => if s = "" then "Unknown error occurred" else s

/-- How the for-await loop of sendMessage terminates: returned (a Finished
event returned the accumulated response), threw (an Error event raised),
or ended (the stream ran out of events and control fell through). -/
inductive LoopCore where
  | returned (response : String)
  | threw (e : JsThrown)
  | ended (response : String)
  deriving DecidableEq, Repr

/-- The observable outcome of the loop: how it terminated, the arguments
of the onStream callback invocations in order, and the tool names logged
by console.log in order. -/
structure LoopOut where
  outcome : LoopCore
  onStreamCalls : List String
  toolLogs : List String
  deriving DecidableEq, Repr

/-- The for-await switch of sendMessage (src/demo.ts lines 79-105): walks
the events, threading fullResponse; a Content event appends event.value
and invokes onStream when provided; Finished returns the accumulated
response; Error throws an instanceof Error named Error with the embedded
or default message; ToolCallRequest only logs the tool name; the default
arm ignores the event. -/
def runLoop (onStreamProvided : Bool) :
    List ServerGeminiStreamEvent → String → LoopOut
  | [], fullResponse => ⟨.ended fullResponse, [], []⟩
  | ServerGeminiStreamEvent.Content v :: rest, fullResponse =>
      let r := runLoop onStreamProvided rest (fullResponse ++ v)
      ⟨r.outcome, (if onStreamProvided then [v] else []) ++ r.onStreamCalls,
        r.toolLogs⟩
  | ServerGeminiStreamEvent.Finished :: _, fullResponse =>
      ⟨.returned fullResponse, [], []⟩
  | ServerGeminiStreamEvent.Error m :: _, _ =>
      ⟨.threw ⟨true, "Error", errMessage m⟩, [], []⟩
  | ServerGeminiStreamEvent.ToolCallRequest nm :: rest, fullResponse =>
      let r := runLoop onStreamProvided rest fullResponse
      ⟨r.outcome, r.onStreamCalls, nm :: r.toolLogs⟩
  | ServerGeminiStreamEvent.Other :: rest, fullResponse =>
      runLoop onStreamProvided rest fullResponse

/-- The catch clause of sendMessage (src/demo.ts lines 108-113): an
instanceof Error whose name is AbortError is replaced by a fresh Error
with the fixed message Request cancelled; everything else is rethrown
unchanged. -/
def normalizeCaught (e : JsThrown) : JsThrown :=
  if e.isErrorInstance ∧ e.name = "AbortError" then
    ⟨true, "Error", "Request cancelled"⟩
  else e

/-- The observable outcome of one sendMessage call: its result (ok with
the returned text, or error with the thrown value), the onStream callback
invocations in order, and the logged tool names in order. -/
structure SendOutcome where
  result : Except JsThrown String
  onStreamCalls : List String
  toolLogs : List String
  deriving Repr

/-- Consuming one stream run inside the try/catch of sendMessage: run the
loop from an empty fullResponse; a Finished return succeeds, a thrown
Error event passes through the catch (normalized, which leaves it
unchanged since its name is Error), and when the loop exhausts the events
the trailing transport exception, if any, is caught and normalized,
otherwise the accumulated response is returned. -/
def consumeStream (s : GeminiStream) (onStreamProvided : Bool) : SendOutcome :=
  let r := runLoop onStreamProvided s.events ""
  match r.outcome with
  | .returned resp => ⟨.ok resp, r.onStreamCalls, r.toolLogs⟩
  | .threw e => ⟨.error (normalizeCaught e), r.onStreamCalls, r.toolLogs⟩
  | .ended resp =>
      match s.exn with
      | none => ⟨.ok resp, r.onStreamCalls, r.toolLogs⟩
      | some e => ⟨.error (normalizeCaught e), r.onStreamCalls, r.toolLogs⟩

/-- The prompt identifier of one sendMessage call (src/demo.ts line 68):
the template literal sessionId-Date.now(), where the timestamp number is
rendered in decimal (Nat.repr is the Lean rendering of that decimal
string). -/
def mkPromptId (sessionId : String) (now : Nat) : String :=
  sessionId ++ "-" ++ Nat.repr now

/-- The client handle: sendMessageStream takes the message, the abort
signal state (true means aborted) and the prompt identifier, and yields a
stream run. -/
structure GeminiClient where
  sendMessageStream : String → Bool → String → GeminiStream

/-- The SimpleAgent facade state: the session identity and target
directory held by its Config, and its client handle. -/
structure SimpleAgent where
  sessionId : String
  targetDir : String
  client : GeminiClient

/-- SimpleAgent.sendMessage (src/demo.ts lines 64-114): builds the prompt
identifier from the session id and the current timestamp, creates a fresh
AbortController whose signal it never aborts, opens the stream with the
message, the signal and the prompt id, and consumes it.  now is the
Date.now() timestamp observed by this call; onStreamProvided records
whether the caller passed the optional onStream callback. -/
def SimpleAgent.sendMessage (a : SimpleAgent) (message : String) (now : Nat)
    (onStreamProvided : Bool) : SendOutcome :=
  let promptId := mkPromptId a.sessionId now
  let signalAborted := false
  consumeStream (a.client.sendMessageStream message signalAborted promptId)
    onStreamProvided

/-- The external library behaviour observed by SimpleAgent.create: the
fresh uuid session id, whether config.initialize() rejects (and with
what), whether client.isInitialized() already holds, whether
client.initialize() rejects, and the client handle the config yields. -/
structure CreateEnv where
  sessionId : String
  configInitFails : Option JsThrown
  clientAlreadyInitialized : Bool
  clientInitFails : Option JsThrown
  client : GeminiClient

/-- The result of a successful SimpleAgent.create: the facade instance
plus the initialization status of the configuration and the client it
owns at return time. -/
structure CreatedAgent where
  agent : SimpleAgent
  configInitialized : Bool
  clientInitialized : Bool

/-- SimpleAgent.create (src/demo.ts lines 37-56): builds the Config for
the workspace root, awaits config.initialize() (a rejection propagates),
obtains the client, initializes it when not already initialized (a
rejection propagates), and only then constructs the facade. -/
def SimpleAgent.create (workspaceRoot : String) (env : CreateEnv) :
    Except JsThrown CreatedAgent :=
  match env.configInitFails with
  | some e => .error e
  | none =>
      if env.clientAlreadyInitialized then
        .ok ⟨⟨env.sessionId, workspaceRoot, env.client⟩, true, true⟩
      else
        match env.clientInitFails with
        | some e => .error e
        | none => .ok ⟨⟨env.sessionId, workspaceRoot, env.client⟩, true, true⟩

/-- Events on which the loop neither returns nor throws. -/
def isTerminal : ServerGeminiStreamEvent → Bool
  | .Finished => true
  | .Error _ => true
  | _ => false

/-- The Content payloads of a list of events, in order. -/
def chunkValues : List ServerGeminiStreamEvent → List String
  | [] => []
  | ServerGeminiStreamEvent.Content v :: rest => v :: chunkValues rest
  | _ :: rest => chunkValues rest

/-- A client that yields the same stream run for every call. -/
def constClient (s : GeminiStream) : GeminiClient :=
  ⟨fun _ _ _ => s⟩

/-- A facade over a constant-stream client, used to instantiate the
claims at concrete inputs. -/
def constAgent (s : GeminiStream) : SimpleAgent :=
  ⟨"session", "/workspace", constClient s⟩

theorem runLoop_content_run (p : Bool) (cs : List String) :
    ∀ (l : List ServerGeminiStreamEvent) (acc : String),
    runLoop p (cs.map ServerGeminiStreamEvent.Content ++ l) acc =
      ⟨(runLoop p l (cs.foldl (· ++ ·) acc)).outcome,
        (if p then cs else []) ++
          (runLoop p l (cs.foldl (· ++ ·) acc)).onStreamCalls,
        (runLoop p l (cs.foldl (· ++ ·) acc)).toolLogs⟩ := by
  induction cs with
  | nil => intro l acc; simp
  | cons c cs ih =>
      intro l acc
      simp only [List.map_cons, List.cons_append, runLoop, List.foldl_cons, ih]
      cases p <;> simp [ih]

theorem consumeStream_content_finished (p : Bool) (cs : List String) :
    consumeStream
      ⟨cs.map ServerGeminiStreamEvent.Content ++
        [ServerGeminiStreamEvent.Finished], none⟩ p =
      ⟨.ok (cs.foldl (· ++ ·) ""), if p then cs else [], []⟩ := by
  unfold consumeStream
  simp only [runLoop_content_run]
  simp [runLoop]

/-- Claim C1: for every message M and stream yielding content chunks
c1..cn then Finished, sendMessage returns the concatenation c1+...+cn and
the onStream callback, when provided, is invoked exactly n times with
c1..cn in arrival order (and never when not provided). -/
theorem sendMessage_concat_and_stream_order (a : SimpleAgent) (M : String)
    (now : Nat) (cs : List String)
    (hs : a.client.sendMessageStream M false (mkPromptId a.sessionId now) =
      ⟨cs.map ServerGeminiStreamEvent.Content ++
        [ServerGeminiStreamEvent.Finished], none⟩) :
    a.sendMessage M now true = ⟨.ok (cs.foldl (· ++ ·) ""), cs, []⟩ ∧
    (a.sendMessage M now false).result = .ok (cs.foldl (· ++ ·) "") ∧
    (a.sendMessage M now false).onStreamCalls = [] := by
  refine ⟨?_, ?_, ?_⟩ <;>
    simp [SimpleAgent.sendMessage, hs, consumeStream_content_finished]

theorem sendMessage_concat_and_stream_order_witness :
    (constAgent ⟨["po", "ng"].map ServerGeminiStreamEvent.Content ++
        [ServerGeminiStreamEvent.Finished], none⟩).sendMessage "ping" 0 true =
      ⟨.ok (["po", "ng"].foldl (· ++ ·) ""), ["po", "ng"], []⟩ ∧
    ((constAgent ⟨["po", "ng"].map ServerGeminiStreamEvent.Content ++
        [ServerGeminiStreamEvent.Finished], none⟩).sendMessage
        "ping" 0 false).result = .ok (["po", "ng"].foldl (· ++ ·) "") ∧
    ((constAgent ⟨["po", "ng"].map ServerGeminiStreamEvent.Content ++
        [ServerGeminiStreamEvent.Finished], none⟩).sendMessage
        "ping" 0 false).onStreamCalls = [] :=
  sendMessage_concat_and_stream_order _ "ping" 0 ["po", "ng"] rfl

theorem runLoop_outcome_append_nonTerminal (p : Bool) :
    ∀ (pre : List ServerGeminiStreamEvent),
    (∀ ev ∈ pre, isTerminal ev = false) →
    ∀ (l : List ServerGeminiStreamEvent) (acc : String),
    (runLoop p (pre ++ l) acc).outcome =
      (runLoop p l ((chunkValues pre).foldl (· ++ ·) acc)).outcome := by
  intro pre
  induction pre with
  | nil => intro _ l acc; simp [chunkValues]
  | cons ev pre ih =>
      intro h l acc
      have hev : isTerminal ev = false := h ev (List.mem_cons_self ev pre)
      have hpre : ∀ e ∈ pre, isTerminal e = false := fun e he =>
        h e (List.mem_cons_of_mem ev he)
      cases ev with
      | Content v => simp [runLoop, chunkValues, ih hpre]
      | Finished => simp [isTerminal] at hev
      | Error m => simp [isTerminal] at hev
      | ToolCallRequest nm => simp [runLoop, chunkValues, ih hpre]
      | Other => simp [runLoop, chunkValues, ih hpre]

theorem consumeStream_result (s : GeminiStream) (p : Bool) :
    (consumeStream s p).result =
      match (runLoop p s.events "").outcome, s.exn with
      | .returned resp, _ => .ok resp
      | .threw e, _ => .error (normalizeCaught e)
      | .ended resp, none => .ok resp
      | .ended _, some e => .error (normalizeCaught e) := by
  cases hr : (runLoop p s.events "").outcome <;> cases hx : s.exn <;>
    simp [consumeStream, hr, hx]

theorem consumeStream_onStreamCalls (s : GeminiStream) (p : Bool) :
    (consumeStream s p).onStreamCalls =
      (runLoop p s.events "").onStreamCalls := by
  cases hr : (runLoop p s.events "").outcome <;> cases hx : s.exn <;>
    simp [consumeStream, hr, hx]

/-- Claim C4: if the stream ends with no Finished and no Error event and
no transport exception, sendMessage returns the response accumulated from
the content chunks seen so far, as a success. -/
theorem sendMessage_stream_ends_fallback (a : SimpleAgent) (M : String)
    (now : Nat) (p : Bool) (evs : List ServerGeminiStreamEvent)
    (hnt : ∀ ev ∈ evs, isTerminal ev = false)
    (hs : a.client.sendMessageStream M false (mkPromptId a.sessionId now) =
      ⟨evs, none⟩) :
    (a.sendMessage M now p).result =
      .ok ((chunkValues evs).foldl (· ++ ·) "") := by
  have h1 : (runLoop p evs "").outcome =
      .ended ((chunkValues evs).foldl (· ++ ·) "") := by
    have h2 := runLoop_outcome_append_nonTerminal p evs hnt [] ""
    simpa [runLoop] using h2
  simp [SimpleAgent.sendMessage, hs, consumeStream_result, h1]

theorem sendMessage_stream_ends_fallback_witness :
    ((constAgent ⟨[ServerGeminiStreamEvent.Content "a",
        ServerGeminiStreamEvent.ToolCallRequest "t",
        ServerGeminiStreamEvent.Other], none⟩).sendMessage
        "m" 0 true).result =
      .ok ((chunkValues [ServerGeminiStreamEvent.Content "a",
        ServerGeminiStreamEvent.ToolCallRequest "t",
        ServerGeminiStreamEvent.Other]).foldl (· ++ ·) "") :=
  sendMessage_stream_ends_fallback _ "m" 0 true _ (by decide) rfl

/-- Claim C2 counterexample: a stream whose error event carries the
embedded message "" (present but empty) makes sendMessage fail with the
fixed default message "Unknown error occurred", not with "": the JS
or-else on event.value.error?.message treats an empty message like an
absent one. -/
theorem sendMessage_error_empty_message_counterexample :
    ((constAgent ⟨[ServerGeminiStreamEvent.Error (some "")],
        none⟩).sendMessage "hi" 0 true).result =
      .error ⟨true, "Error", "Unknown error occurred"⟩ ∧
    "Unknown error occurred" ≠ "" := by
  exact ⟨rfl, by decide⟩

/-- Claim C2 (amended): if the stream yields an error event whose
embedded message is present and non-empty, sendMessage fails with an
error carrying exactly that message; if the embedded message is absent or
empty, the failure message is exactly "Unknown error occurred". -/
theorem sendMessage_error_event (a : SimpleAgent) (M : String) (now : Nat)
    (p : Bool) (pre rest : List ServerGeminiStreamEvent) (m : Option String)
    (exn : Option JsThrown)
    (hnt : ∀ ev ∈ pre, isTerminal ev = false)
    (hs : a.client.sendMessageStream M false (mkPromptId a.sessionId now) =
      ⟨pre ++ ServerGeminiStreamEvent.Error m :: rest, exn⟩) :
    (a.sendMessage M now p).result = .error ⟨true, "Error", errMessage m⟩ ∧
    (∀ s, m = some s → s ≠ "" → errMessage m = s) ∧
    ((m = none ∨ m = some "") →
      errMessage m = "Unknown error occurred") := by
  refine ⟨?_, ?_, ?_⟩
  · have h1 : (runLoop p
        (pre ++ ServerGeminiStreamEvent.Error m :: rest) "").outcome =
        .threw ⟨true, "Error", errMessage m⟩ := by
      rw [runLoop_outcome_append_nonTerminal p pre hnt]
      simp [runLoop]
    have hn : normalizeCaught ⟨true, "Error", errMessage m⟩ =
        ⟨true, "Error", errMessage m⟩ := by
      simp [normalizeCaught]
    simp [SimpleAgent.sendMessage, hs, consumeStream_result, h1, hn]
  · rintro s rfl hne
    simp [errMessage, hne]
  · rintro (rfl | rfl) <;> simp [errMessage]

theorem sendMessage_error_event_witness :
    ((constAgent ⟨[ServerGeminiStreamEvent.Content "x",
        ServerGeminiStreamEvent.Error (some "boom"),
        ServerGeminiStreamEvent.Finished], none⟩).sendMessage
        "hi" 0 true).result =
      .error ⟨true, "Error", errMessage (some "boom")⟩ ∧
    (∀ s, some "boom" = some s → s ≠ "" → errMessage (some "boom") = s) ∧
    ((some "boom" = none ∨ some "boom" = some "") →
      errMessage (some "boom") = "Unknown error occurred") :=
  sendMessage_error_event _ "hi" 0 true
    [ServerGeminiStreamEvent.Content "x"]
    [ServerGeminiStreamEvent.Finished] (some "boom") none (by decide) rfl

/-- Claim C3: a transport exception that is an instanceof Error named
AbortError makes the call fail with a fresh Error carrying the fixed
message "Request cancelled", whatever the message of the abort error was;
every other exception propagates to the caller unchanged. -/
theorem sendMessage_exception_normalization (a : SimpleAgent) (M : String)
    (now : Nat) (p : Bool) (evs : List ServerGeminiStreamEvent)
    (e : JsThrown)
    (hnt : ∀ ev ∈ evs, isTerminal ev = false)
    (hs : a.client.sendMessageStream M false (mkPromptId a.sessionId now) =
      ⟨evs, some e⟩) :
    (e.isErrorInstance = true → e.name = "AbortError" →
      (a.sendMessage M now p).result =
        .error ⟨true, "Error", "Request cancelled"⟩) ∧
    ((e.isErrorInstance = false ∨ e.name ≠ "AbortError") →
      (a.sendMessage M now p).result = .error e) := by
  have h1 : (runLoop p evs "").outcome =
      .ended ((chunkValues evs).foldl (· ++ ·) "") := by
    have h2 := runLoop_outcome_append_nonTerminal p evs hnt [] ""
    simpa [runLoop] using h2
  constructor
  · intro hi hn
    simp [SimpleAgent.sendMessage, hs, consumeStream_result, h1,
      normalizeCaught, hi, hn]
  · intro hcase
    have hne : normalizeCaught e = e := by
      rcases hcase with h | h <;> simp [normalizeCaught, h]
    simp [SimpleAgent.sendMessage, hs, consumeStream_result, h1, hne]

/-- The abort exception used to instantiate the cancellation claim. -/
def abortErr : JsThrown :=
  ⟨true, "AbortError", "The operation was aborted"⟩

theorem sendMessage_exception_normalization_witness :
    (abortErr.isErrorInstance = true → abortErr.name = "AbortError" →
      ((constAgent ⟨[ServerGeminiStreamEvent.Content "x"],
          some abortErr⟩).sendMessage "m" 0 true).result =
        .error ⟨true, "Error", "Request cancelled"⟩) ∧
    ((abortErr.isErrorInstance = false ∨ abortErr.name ≠ "AbortError") →
      ((constAgent ⟨[ServerGeminiStreamEvent.Content "x"],
          some abortErr⟩).sendMessage "m" 0 true).result =
        .error abortErr) :=
  sendMessage_exception_normalization _ "m" 0 true
    [ServerGeminiStreamEvent.Content "x"] abortErr (by decide) rfl

/-- Claim C5: a failing call discards the accumulated response.  The
failing result is computed from the failure cause alone: it equals the
result of the same failure with no preceding chunks, and it is never an
ok result with any text, whether the failure is an error event or a
transport exception. -/
theorem failure_discards_accumulated_response (p : Bool)
    (pre rest evs : List ServerGeminiStreamEvent) (m : Option String)
    (exn : Option JsThrown) (e : JsThrown)
    (hpre : ∀ ev ∈ pre, isTerminal ev = false)
    (hevs : ∀ ev ∈ evs, isTerminal ev = false) :
    ((consumeStream
        ⟨pre ++ ServerGeminiStreamEvent.Error m :: rest, exn⟩ p).result =
      (consumeStream
        ⟨[ServerGeminiStreamEvent.Error m], none⟩ p).result ∧
     ∀ t, (consumeStream
        ⟨pre ++ ServerGeminiStreamEvent.Error m :: rest, exn⟩ p).result ≠
          .ok t) ∧
    ((consumeStream ⟨evs, some e⟩ p).result =
      (consumeStream (⟨[], some e⟩ : GeminiStream) p).result ∧
     ∀ t, (consumeStream ⟨evs, some e⟩ p).result ≠ .ok t) := by
  have h1 : (runLoop p
      (pre ++ ServerGeminiStreamEvent.Error m :: rest) "").outcome =
      .threw ⟨true, "Error", errMessage m⟩ := by
    rw [runLoop_outcome_append_nonTerminal p pre hpre]
    simp [runLoop]
  have h2 : (runLoop p evs "").outcome =
      .ended ((chunkValues evs).foldl (· ++ ·) "") := by
    have h3 := runLoop_outcome_append_nonTerminal p evs hevs [] ""
    simpa [runLoop] using h3
  refine ⟨⟨?_, ?_⟩, ⟨?_, ?_⟩⟩ <;>
    simp [consumeStream_result, h1, h2, runLoop]

theorem failure_discards_accumulated_response_witness :
    ((consumeStream ⟨[ServerGeminiStreamEvent.Content "partial",
        ServerGeminiStreamEvent.Error (some "boom")], none⟩ true).result =
      (consumeStream
        ⟨[ServerGeminiStreamEvent.Error (some "boom")], none⟩ true).result ∧
     ∀ t, (consumeStream ⟨[ServerGeminiStreamEvent.Content "partial",
        ServerGeminiStreamEvent.Error (some "boom")], none⟩ true).result ≠
          .ok t) ∧
    ((consumeStream ⟨[ServerGeminiStreamEvent.Content "partial"],
        some abortErr⟩ true).result =
      (consumeStream (⟨[], some abortErr⟩ : GeminiStream) true).result ∧
     ∀ t, (consumeStream ⟨[ServerGeminiStreamEvent.Content "partial"],
        some abortErr⟩ true).result ≠ .ok t) :=
  failure_discards_accumulated_response true
    [ServerGeminiStreamEvent.Content "partial"] []
    [ServerGeminiStreamEvent.Content "partial"] (some "boom") none abortErr
    (by decide) (by decide)

theorem runLoop_toolCall_erased (p : Bool) (nm : String)
    (post : List ServerGeminiStreamEvent) :
    ∀ (pre : List ServerGeminiStreamEvent) (acc : String),
    (runLoop p
      (pre ++ ServerGeminiStreamEvent.ToolCallRequest nm :: post)
      acc).outcome = (runLoop p (pre ++ post) acc).outcome ∧
    (runLoop p
      (pre ++ ServerGeminiStreamEvent.ToolCallRequest nm :: post)
      acc).onStreamCalls = (runLoop p (pre ++ post) acc).onStreamCalls := by
  intro pre
  induction pre with
  | nil => intro acc; simp [runLoop]
  | cons ev pre ih =>
      intro acc
      cases ev <;> simp [runLoop, ih]

/-- Claim C6: a tool-call-request event in the stream has no effect on
the result of the call or on the onStream callback invocations; removing
it from the stream leaves both unchanged, and iteration proceeds past it
to the later events. -/
theorem toolCallRequest_no_effect (p : Bool) (nm : String)
    (pre post : List ServerGeminiStreamEvent) (exn : Option JsThrown) :
    (consumeStream
      ⟨pre ++ ServerGeminiStreamEvent.ToolCallRequest nm :: post, exn⟩
      p).result = (consumeStream ⟨pre ++ post, exn⟩ p).result ∧
    (consumeStream
      ⟨pre ++ ServerGeminiStreamEvent.ToolCallRequest nm :: post, exn⟩
      p).onStreamCalls =
      (consumeStream ⟨pre ++ post, exn⟩ p).onStreamCalls := by
  have h := runLoop_toolCall_erased p nm post pre ""
  constructor
  · rw [consumeStream_result, consumeStream_result]
    dsimp only
    rw [h.1]
  · rw [consumeStream_onStreamCalls, consumeStream_onStreamCalls]
    dsimp only
    rw [h.2]

/-- Decimal decoding of a digit list, most significant digit first; used
to invert the decimal rendering of the timestamp. -/
def strVal (l : List Char) : Nat :=
  l.foldl (fun a c => 10 * a + (c.toNat - 48)) 0

theorem digitChar_val {d : Nat} (h : d < 10) :
    (Nat.digitChar d).toNat - 48 = d := by
  interval_cases d <;> rfl

theorem toDigitsCore_acc_append (b : Nat) :
    ∀ (f n : Nat) (ds : List Char),
    Nat.toDigitsCore b f n ds = Nat.toDigitsCore b f n [] ++ ds := by
  intro f
  induction f with
  | zero => intro n ds; simp [Nat.toDigitsCore]
  | succ f ih =>
      intro n ds
      simp only [Nat.toDigitsCore]
      by_cases h : n / b = 0
      · simp [h]
      · rw [if_neg h, if_neg h, ih (n / b), ih (n / b) [Nat.digitChar (n % b)]]
        simp

theorem strVal_append_digit (l : List Char) (c : Char) :
    strVal (l ++ [c]) = 10 * strVal l + (c.toNat - 48) := by
  simp [strVal, List.foldl_append]

theorem strVal_toDigitsCore :
    ∀ (f n : Nat), n < f → strVal (Nat.toDigitsCore 10 f n []) = n := by
  intro f
  induction f with
  | zero => intro n h; omega
  | succ f ih =>
      intro n h
      simp only [Nat.toDigitsCore]
      by_cases h0 : n / 10 = 0
      · have hn : n < 10 := by omega
        have hm : n % 10 = n := Nat.mod_eq_of_lt hn
        rw [if_pos h0]
        simp [strVal, hm, digitChar_val hn]
      · rw [if_neg h0, toDigitsCore_acc_append, strVal_append_digit]
        have hlt : n / 10 < f := by
          have hd : n / 10 < n := Nat.div_lt_self (by omega) (by omega)
          omega
        rw [ih (n / 10) hlt]
        have hm : n % 10 < 10 := Nat.mod_lt n (by omega)
        rw [digitChar_val hm]
        omega

theorem strVal_toDigits (n : Nat) : strVal (Nat.toDigits 10 n) = n :=
  strVal_toDigitsCore (n + 1) n (Nat.lt_succ_self n)

theorem natRepr_inj {a b : Nat} (h : Nat.repr a = Nat.repr b) : a = b := by
  have hd : Nat.toDigits 10 a = Nat.toDigits 10 b := by
    have h2 := congrArg String.data h
    simpa [Nat.repr, List.asString] using h2
  have h3 := strVal_toDigits a
  rw [hd, strVal_toDigits b] at h3
  exact h3.symm

theorem string_append_left_cancel {s a b : String}
    (h : s ++ a = s ++ b) : a = b := by
  have h2 := congrArg String.data h
  simp only [String.data_append] at h2
  have h3 := List.append_cancel_left h2
  cases a
  cases b
  exact congrArg String.mk h3

theorem mkPromptId_time_inj {sid : String} {t1 t2 : Nat}
    (h : mkPromptId sid t1 = mkPromptId sid t2) : t1 = t2 := by
  unfold mkPromptId at h
  rw [String.append_assoc, String.append_assoc] at h
  exact natRepr_inj
    (string_append_left_cancel (string_append_left_cancel h))

/-- A Date.now() clock under which two concurrent calls observe the same
millisecond. -/
def sameMillisecondClock : Nat → Nat := fun _ => 1700000000

/-- Claim C7 counterexample: two distinct sendMessage calls (call number
0 and call number 1 on the same facade) that observe the same Date.now()
millisecond generate the same request identifier, so the generated
identifiers are not distinct for every pair of distinct calls. -/
theorem promptId_same_millisecond_counterexample :
    (0 : Nat) ≠ 1 ∧
    mkPromptId "session" (sameMillisecondClock 0) =
      mkPromptId "session" (sameMillisecondClock 1) :=
  ⟨by decide, rfl⟩

/-- Claim C7 (amended): every sendMessage call generates the request
identifier obtained by concatenating the session identity, a hyphen and
the decimal rendering of the current timestamp, and two calls on the same
facade that observe distinct timestamps generate distinct identifiers;
calls that observe the same millisecond collide. -/
theorem promptId_shape_and_distinct_times (sid : String) (t1 t2 : Nat)
    (h : t1 ≠ t2) :
    mkPromptId sid t1 = sid ++ "-" ++ Nat.repr t1 ∧
    mkPromptId sid t1 ≠ mkPromptId sid t2 :=
  ⟨rfl, fun hc => h (mkPromptId_time_inj hc)⟩

theorem promptId_shape_and_distinct_times_witness :
    (0 : Nat) ≠ 1 ∧
    (mkPromptId "session" 0 = "session" ++ "-" ++ Nat.repr 0 ∧
     mkPromptId "session" 0 ≠ mkPromptId "session" 1) :=
  ⟨by decide, promptId_shape_and_distinct_times "session" 0 1 (by decide)⟩

/-- Claim C8: a failure of configuration initialization or of client
initialization during create surfaces to the caller as that very error
and no facade is produced; a successful create returns a facade whose
configuration and client are fully initialized. -/
theorem create_initialization_contract (workspaceRoot : String)
    (env : CreateEnv) :
    (∀ e, env.configInitFails = some e →
      SimpleAgent.create workspaceRoot env = .error e) ∧
    (∀ e, env.configInitFails = none →
      env.clientAlreadyInitialized = false → env.clientInitFails = some e →
      SimpleAgent.create workspaceRoot env = .error e) ∧
    (∀ c, SimpleAgent.create workspaceRoot env = .ok c →
      c.configInitialized = true ∧ c.clientInitialized = true) := by
  refine ⟨?_, ?_, ?_⟩
  · intro e he
    simp [SimpleAgent.create, he]
  · intro e h1 h2 h3
    simp [SimpleAgent.create, h1, h2, h3]
  · intro c hc
    unfold SimpleAgent.create at hc
    cases hcf : env.configInitFails with
    | some e => rw [hcf] at hc; exact absurd hc (by simp)
    | none =>
        rw [hcf] at hc
        by_cases hai : env.clientAlreadyInitialized
        · rw [if_pos hai] at hc
          cases hc
          exact ⟨rfl, rfl⟩
        · rw [if_neg hai] at hc
          cases hci : env.clientInitFails with
          | some e => rw [hci] at hc; exact absurd hc (by simp)
          | none =>
              rw [hci] at hc
              cases hc
              exact ⟨rfl, rfl⟩

theorem create_initialization_contract_witness :
    SimpleAgent.create "/ws"
      ⟨"s", some ⟨true, "Error", "config init failed"⟩, false, none,
        constClient ⟨[], none⟩⟩ =
      .error ⟨true, "Error", "config init failed"⟩ :=
  (create_initialization_contract "/ws" _).1 _ rfl

/-- Claim C9: the facade itself never triggers cancellation.  The signal
it hands to sendMessageStream is the fresh, never-aborted one, so the
behaviour of a call depends only on the streams the client yields for a
non-aborted signal; and the catch clause rewrites a caught value into the
dedicated Request cancelled error only when that value is an instanceof
Error named AbortError, leaving every other value as it is. -/
theorem facade_never_triggers_cancellation (a1 a2 : SimpleAgent)
    (M : String) (now : Nat) (p : Bool)
    (hsid : a1.sessionId = a2.sessionId)
    (hstream : ∀ m pid, a1.client.sendMessageStream m false pid =
      a2.client.sendMessageStream m false pid) :
    a1.sendMessage M now p = a2.sendMessage M now p ∧
    (∀ e : JsThrown, normalizeCaught e ≠ e →
      e.isErrorInstance = true ∧ e.name = "AbortError") ∧
    (∀ e : JsThrown, e.name ≠ "AbortError" → normalizeCaught e = e) := by
  refine ⟨?_, ?_, ?_⟩
  · simp only [SimpleAgent.sendMessage]
    rw [hsid, hstream]
  · intro e he
    by_cases hcond : e.isErrorInstance ∧ e.name = "AbortError"
    · exact ⟨hcond.1, hcond.2⟩
    · exact absurd (by simp [normalizeCaught, hcond]) he
  · intro e hn
    simp [normalizeCaught, hn]

theorem facade_never_triggers_cancellation_witness :
    (constAgent ⟨[], none⟩).sendMessage "m" 0 true =
      (constAgent ⟨[], none⟩).sendMessage "m" 0 true ∧
    (∀ e : JsThrown, normalizeCaught e ≠ e →
      e.isErrorInstance = true ∧ e.name = "AbortError") ∧
    (∀ e : JsThrown, e.name ≠ "AbortError" → normalizeCaught e = e) :=
  facade_never_triggers_cancellation (constAgent ⟨[], none⟩)
    (constAgent ⟨[], none⟩) "m" 0 true rfl (fun _ _ => rfl)

/-- Claim C10: sendMessage validates nothing about its message: every
message, the empty string included, is forwarded unchanged to the stream
opening call of the client, and the facade raises no error of its own for
an empty message (an empty-message call whose stream just finishes
succeeds with the empty response). -/
theorem message_forwarded_without_validation (a : SimpleAgent) (M : String)
    (now : Nat) (p : Bool) :
    a.sendMessage M now p =
      consumeStream
        (a.client.sendMessageStream M false (mkPromptId a.sessionId now)) p ∧
    a.sendMessage "" now p =
      consumeStream
        (a.client.sendMessageStream "" false (mkPromptId a.sessionId now)) p ∧
    (a.client.sendMessageStream "" false (mkPromptId a.sessionId now) =
        ⟨[ServerGeminiStreamEvent.Finished], none⟩ →
      (a.sendMessage "" now p).result = .ok "") := by
  refine ⟨rfl, rfl, fun h => ?_⟩
  simp [SimpleAgent.sendMessage, h, consumeStream, runLoop]

theorem message_forwarded_without_validation_witness :
    (constAgent ⟨[ServerGeminiStreamEvent.Finished], none⟩).sendMessage
        "m" 0 true =
      consumeStream
        ((constAgent
          ⟨[ServerGeminiStreamEvent.Finished], none⟩).client.sendMessageStream
          "m" false
          (mkPromptId
            (constAgent
              ⟨[ServerGeminiStreamEvent.Finished], none⟩).sessionId 0))
        true ∧
    (constAgent ⟨[ServerGeminiStreamEvent.Finished], none⟩).sendMessage
        "" 0 true =
      consumeStream
        ((constAgent
          ⟨[ServerGeminiStreamEvent.Finished], none⟩).client.sendMessageStream
          "" false
          (mkPromptId
            (constAgent
              ⟨[ServerGeminiStreamEvent.Finished], none⟩).sessionId 0))
        true ∧
    ((constAgent
        ⟨[ServerGeminiStreamEvent.Finished], none⟩).client.sendMessageStream
        "" false
        (mkPromptId
          (constAgent
            ⟨[ServerGeminiStreamEvent.Finished], none⟩).sessionId 0) =
        ⟨[ServerGeminiStreamEvent.Finished], none⟩ →
      ((constAgent ⟨[ServerGeminiStreamEvent.Finished],
          none⟩).sendMessage "" 0 true).result = .ok "") :=
  message_forwarded_without_validation
    (constAgent ⟨[ServerGeminiStreamEvent.Finished], none⟩) "m" 0 true
